import Mathlib

/-!
Verification of the cni-log logging package: a shallow embedding of the
level type (logging_level.go), the shared logging state, the configuration
setters and the dispatch/fan-out pipeline (logging.go), with theorems about
the level gate, sink fan-out, structured-message assembly and parity
checking, and the configuration setters.

Modelling conventions:
* Go `int` values (levels, rotation options) are Lean `Int`.
* A Go `panic` is `Except.error payload`; a normal return is `Except.ok`.
* Writes to the two sinks are recorded as a list of `WriteEvent`s in the
  order the code performs them; diagnostics printed directly to stderr by
  the setup functions (outside the managed sinks) are returned as a
  separate `List String`.
* `interface{}` arguments are modelled by `GoValue`, covering the argument
  types exercised here; `argToString` is the `fmt.Sprintf("%+v", ·)`
  rendering of each.
* Side-effecting external collaborators (symlink probing, path cleaning,
  writability probing) are abstracted into a `FileSystem` record of pure
  functions.
-/

/-! Levels, from logging_level.go. -/

def InvalidLevel : Int := -1

def PanicLevel : Int := 1

def ErrorLevel : Int := 2

def WarningLevel : Int := 3

def InfoLevel : Int := 4

def DebugLevel : Int := 5

/-- maximumLevel in logging_level.go: the highest valid level is Debug. -/
def maximumLevel : Int := DebugLevel

/-- Level.String from logging_level.go (the switch, in source order). -/
def levelString (l : Int) : String :=
  if l = PanicLevel then "panic"
  else if l = WarningLevel then "warning"
  else if l = InfoLevel then "info"
  else if l = ErrorLevel then "error"
  else if l = DebugLevel then "debug"
  else if l = InvalidLevel then "invalid"
  else "invalid"

/-- Level.IsValid from logging_level.go: `l > 0 && l <= maximumLevel`. -/
def levelIsValid (l : Int) : Bool :=
  decide (l > 0) && decide (l ≤ maximumLevel)

/-- ASCII case folding of one character, the fragment of Go
strings.ToLower relevant to the all-ASCII keys of levelMap. -/
def asciiLower (c : Char) : Char :=
  if 65 ≤ c.toNat ∧ c.toNat ≤ 90 then Char.ofNat (c.toNat + 32) else c

/-- Go strings.ToLower restricted to ASCII case folding. -/
def toLowerGo (s : String) : String :=
  String.mk (s.data.map asciiLower)

/-- levelMap from logging_level.go: the five valid level names. -/
def levelMap : List (String × Int) :=
  [("panic", PanicLevel), ("error", ErrorLevel), ("warning", WarningLevel),
   ("info", InfoLevel), ("debug", DebugLevel)]

/-- Go map lookup with the not-found branch returning InvalidLevel,
modelling the comma-ok pattern in StringToLevel. -/
def lookupLevel : String → List (String × Int) → Int
  | _, [] => InvalidLevel
  | k, (name, l) :: rest => if k = name then l else lookupLevel k rest

/-- StringToLevel from logging_level.go: case-insensitive lookup in
levelMap, InvalidLevel when unmatched. -/
def StringToLevel (s : String) : Int :=
  lookupLevel (toLowerGo s) levelMap

/-! Message text constants from logging.go. -/

def logFileReqFailMsg : String :=
  "cni-log: filename is required when logging to stderr is off - will not log anything\n"

def setLevelFailText (level : Int) : String :=
  "cni-log: cannot set logging level to '" ++ levelString level ++ "'\n"

def logFileFailText (filename : String) : String :=
  "cni-log: failed to set log file '" ++ filename ++ "'\n"

def symlinkEvalFailText (path : String) : String :=
  "cni-log: unable to evaluate symbolic links on path '" ++ path ++ "'"

def emptyStringFailMsg : String :=
  "cni-log: unable to resolve empty string"

def structuredLoggingOddArguments : String :=
  "must provide an even number of arguments for structured logging"

def structuredPrefixerOddArguments : String :=
  "prefixer must return an even number of arguments for structured logging"

/-! Values passed through interface arguments, and their rendering. -/

/-- A Go `interface{}` argument, restricted to the value shapes the
package and its tests pass to the structured logging calls. -/
inductive GoValue where
  | str (s : String)
  | int (n : Int)
  | bool (b : Bool)
  | level (l : Int)
deriving DecidableEq

/-- argToString from logging.go: `fmt.Sprintf("%+v", arg)` for each
modelled argument shape (a Level renders through its String method). -/
def argToString : GoValue → String
  | .str s => s
  | .int n => toString n
  | .bool b => if b then "true" else "false"
  | .level l => levelString l

def hexDigit (n : Nat) : Char :=
  if n < 10 then Char.ofNat (48 + n) else Char.ofNat (87 + n)

def hexByte (n : Nat) : String :=
  String.mk [hexDigit (n / 16 % 16), hexDigit (n % 16)]

/-- Go `%q` escaping of one character (strconv.Quote), covering the
double quote, backslash, the shorthand escapes, printable characters and
the `\x` fallback for other control bytes. -/
def goQuoteChar (c : Char) : String :=
  if c = Char.ofNat 34 then "\\\""
  else if c = Char.ofNat 92 then "\\\\"
  else if c = Char.ofNat 7 then "\\a"
  else if c = Char.ofNat 8 then "\\b"
  else if c = Char.ofNat 12 then "\\f"
  else if c = Char.ofNat 10 then "\\n"
  else if c = Char.ofNat 13 then "\\r"
  else if c = Char.ofNat 9 then "\\t"
  else if c = Char.ofNat 11 then "\\v"
  else if 32 ≤ c.toNat ∧ c.toNat ≠ 127 then String.singleton c
  else "\\x" ++ hexByte c.toNat

/-- Go `fmt.Sprintf("%q", s)`: the string in double quotes with each
character escaped per strconv.Quote. -/
def goQuote (s : String) : String :=
  "\"" ++ String.join (s.data.map goQuoteChar) ++ "\""

/-! The shared logging state, from logging.go. -/

/-- lumberjack.Logger, at the interface boundary this package uses: the
target filename and the four rotation-policy fields. -/
structure LumberjackLogger where
  filename : String
  maxSize : Int
  maxAge : Int
  maxBackups : Int
  compress : Bool
deriving DecidableEq

/-- The file write-target held in state.logWriter: either a published
snapshot copy of the rotation descriptor, or an arbitrary caller-supplied
writer installed by SetOutput (identified abstractly). -/
inductive LogWriter where
  | rotatingFile (cfg : LumberjackLogger)
  | custom (id : Nat)
deriving DecidableEq

/-- LogOptions from logging.go: the four optional rotation fields
(`nil` pointer = `none`). -/
structure LogOptions where
  maxAge : Option Int
  maxSize : Option Int
  maxBackups : Option Int
  compress : Option Bool
deriving DecidableEq

/-- The `state` struct from logging.go (the loggingState singleton),
minus the mutex: rotation descriptor, file write-target, level threshold,
stderr flag, and the two active prefixer capabilities as functions. -/
structure LogState where
  logger : LumberjackLogger
  logWriter : Option LogWriter
  logLevel : Int
  logToStderr : Bool
  prefixerFn : Int → String
  structuredPrefixerFn : Int → String → List GoValue

/-- state.isFileLoggingEnabled: true iff the logWriter is not nil. -/
def isFileLoggingEnabled (s : LogState) : Bool :=
  s.logWriter.isSome

/-! The dispatch pipeline, from logging.go. -/

/-- One of the two managed sinks. -/
inductive Sink where
  | stderr
  | fileTarget
deriving DecidableEq

/-- One write performed by doWritef: the sink and the full text written
(message then the newline terminator). -/
structure WriteEvent where
  sink : Sink
  text : String
deriving DecidableEq

/-- doWritef from logging.go: writes the formatted message and then a
newline to the given writer. -/
def doWritef (sink : Sink) (msg : String) : WriteEvent :=
  ⟨sink, msg ++ "\n"⟩

/-- printWithPrefixf from logging.go: level gate, sink-availability gate,
optional prefix injection, then the stderr write and the file write. The
formatted payload is `msg`. -/
def printWithPrefixf (s : LogState) (level : Int) (withPfx : Bool) (msg : String) : List WriteEvent :=
  if level > s.logLevel then []
  else if !isFileLoggingEnabled s && !s.logToStderr then []
  else
    let m := if withPfx then s.prefixerFn level ++ msg else msg
    (if s.logToStderr then [doWritef Sink.stderr m] else []) ++
    (if isFileLoggingEnabled s then [doWritef Sink.fileTarget m] else [])

/-- printf from logging.go: printWithPrefixf with the prefix enabled. -/
def printf (s : LogState) (level : Int) (msg : String) : List WriteEvent :=
  printWithPrefixf s level true msg

/-- The pair-rendering loop of structuredMessage: successive key/value
pairs rendered as `key="value"`, the loop bound `i < len-1` dropping a
trailing unpaired element. -/
def renderKVPairs : List GoValue → List String
  | k :: v :: rest => (argToString k ++ "=" ++ goQuote (argToString v)) :: renderKVPairs rest
  | _ => []

/-- structuredMessage from logging.go: calls the active
StructuredPrefixer, panics on an odd prefix list, renders the prefix
pairs, panics on an odd caller list (appending the logging_failure pair to
the partial output first), renders the caller pairs and joins everything
with single spaces. -/
def structuredMessage (s : LogState) (loggingLevel : Int) (msg : String) (args : List GoValue) : Except String String :=
  let prefixArgs := s.structuredPrefixerFn loggingLevel msg
  if prefixArgs.length % 2 ≠ 0 then
    Except.error ("msg=" ++ goQuote msg ++ " logging_failure=" ++ goQuote structuredPrefixerOddArguments)
  else
    let output := renderKVPairs prefixArgs
    if args.length % 2 ≠ 0 then
      Except.error (String.intercalate " " (output ++ ["logging_failure=" ++ goQuote structuredLoggingOddArguments]))
    else
      Except.ok (String.intercalate " " (output ++ renderKVPairs args))

/-! The logging entry points, from logging.go. `stackTrace` stands for the
`string(debug.Stack())` capture where one is taken. -/

def Panicf (s : LogState) (stackTrace : String) (msg : String) : List WriteEvent :=
  printf s PanicLevel msg ++
  printf s PanicLevel "========= Stack trace output ========" ++
  printf s PanicLevel stackTrace ++
  printf s PanicLevel "========= Stack trace output end ========"

def PanicStructured (s : LogState) (stackTrace : String) (msg : String) (args : List GoValue) : Except String (List WriteEvent) :=
  match structuredMessage s PanicLevel msg (args ++ [GoValue.str "stacktrace", GoValue.str stackTrace]) with
  | Except.error p => Except.error p
  | Except.ok m => Except.ok (printWithPrefixf s PanicLevel false m)

/-- Errorf: dispatches at Error level and returns the (always non-nil)
`fmt.Errorf` error, modelled as the formatted message it carries. -/
def Errorf (s : LogState) (msg : String) : List WriteEvent × String :=
  (printf s ErrorLevel msg, msg)

def ErrorStructured (s : LogState) (msg : String) (args : List GoValue) : Except String (List WriteEvent × String) :=
  match structuredMessage s ErrorLevel msg args with
  | Except.error p => Except.error p
  | Except.ok m => Except.ok (printWithPrefixf s ErrorLevel false m, m)

def Warningf (s : LogState) (msg : String) : List WriteEvent :=
  printf s WarningLevel msg

def WarningStructured (s : LogState) (msg : String) (args : List GoValue) : Except String (List WriteEvent) :=
  match structuredMessage s WarningLevel msg args with
  | Except.error p => Except.error p
  | Except.ok m => Except.ok (printWithPrefixf s WarningLevel false m)

def Infof (s : LogState) (msg : String) : List WriteEvent :=
  printf s InfoLevel msg

def InfoStructured (s : LogState) (msg : String) (args : List GoValue) : Except String (List WriteEvent) :=
  match structuredMessage s InfoLevel msg args with
  | Except.error p => Except.error p
  | Except.ok m => Except.ok (printWithPrefixf s InfoLevel false m)

def Debugf (s : LogState) (msg : String) : List WriteEvent :=
  printf s DebugLevel msg

def DebugStructured (s : LogState) (msg : String) (args : List GoValue) : Except String (List WriteEvent) :=
  match structuredMessage s DebugLevel msg args with
  | Except.error p => Except.error p
  | Except.ok m => Except.ok (printWithPrefixf s DebugLevel false m)

/-! Configuration setters, from logging.go. Each returns the new state and
the list of diagnostics written directly to stderr. -/

/-- state.setLogFile: empty filename clears the descriptor filename and
the write-target together; otherwise assigns the filename to the
descriptor and publishes a snapshot copy as the write-target. -/
def stateSetLogFile (s : LogState) (filename : String) : LogState :=
  if filename = "" then
    { s with logger := { s.logger with filename := "" }, logWriter := none }
  else
    let lg := { s.logger with filename := filename }
    { s with logger := lg, logWriter := some (LogWriter.rotatingFile lg) }

/-- state.setLogOptions: reset the four rotation fields to the defaults,
then overlay each caller-supplied field, in source order. -/
def stateSetLogOptions (s : LogState) (options : Option LogOptions) : LogState :=
  let lg0 := { s.logger with maxSize := 100, maxAge := 5, maxBackups := 5, compress := true }
  let lg :=
    match options with
    | none => lg0
    | some o =>
      let l1 := match o.maxAge with
        | some v => { lg0 with maxAge := v }
        | none => lg0
      let l2 := match o.maxSize with
        | some v => { l1 with maxSize := v }
        | none => l1
      let l3 := match o.maxBackups with
        | some v => { l2 with maxBackups := v }
        | none => l2
      match o.compress with
        | some v => { l3 with compress := v }
        | none => l3
  { s with logger := lg }

/-- state.setLoggerAsLogWriter: publish a snapshot copy of the current
rotation descriptor as the file write-target. -/
def setLoggerAsLogWriter (s : LogState) : LogState :=
  { s with logWriter := some (LogWriter.rotatingFile s.logger) }

/-- SetLogOptions from logging.go: apply the rotation policy, then
republish the write-target snapshot if file logging is enabled. -/
def SetLogOptions (s : LogState) (options : Option LogOptions) : LogState :=
  let s1 := stateSetLogOptions s options
  if isFileLoggingEnabled s1 then setLoggerAsLogWriter s1 else s1

/-- SetLogLevel from logging.go: store the level if valid, otherwise
emit the diagnostic and leave the threshold unchanged. -/
def SetLogLevel (s : LogState) (level : Int) : LogState × List String :=
  if levelIsValid level then ({ s with logLevel := level }, [])
  else (s, [setLevelFailText level])

/-- The filesystem collaborators of SetLogFile, abstracted as pure
functions: isSymLink (os.Lstat probe), filepath.Clean, and
isLogFileWritable (stat/mkdir/open probe). -/
structure FileSystem where
  isSymLink : String → Bool
  cleanPath : String → String
  isLogFileWritable : String → Bool

/-- resolvePath from logging.go: error on the empty string, error on a
symbolic link, otherwise the cleaned path. -/
def resolvePath (fs : FileSystem) (path : String) : Except String String :=
  if path = "" then Except.error emptyStringFailMsg
  else if fs.isSymLink path then Except.error (symlinkEvalFailText path)
  else Except.ok (fs.cleanPath path)

/-- SetLogFile from logging.go: empty filename warns when stderr logging
is off and clears the file target; otherwise resolve the path, probe
writability, and on success store the (original, uncleaned) filename. -/
def SetLogFile (fs : FileSystem) (s : LogState) (filename : String) : LogState × List String :=
  if filename = "" then
    (stateSetLogFile s "", if !s.logToStderr then [logFileReqFailMsg] else [])
  else
    match resolvePath fs filename with
    | Except.error e => (s, [e])
    | Except.ok fp =>
      if !fs.isLogFileWritable fp then (s, [logFileFailText filename])
      else (stateSetLogFile s filename, [])

/-- The level-independent dual-sink fan-out: the writes printWithPrefixf
performs once both gates pass, used to state gate-elimination facts. -/
def sinkFanOut (s : LogState) (line : String) : List WriteEvent :=
  (if s.logToStderr then [doWritef Sink.stderr line] else []) ++
  (if isFileLoggingEnabled s then [doWritef Sink.fileTarget line] else [])

/-! Helper lemmas shared by the claim theorems. -/

/-- Characterization of printWithPrefixf: the level gate decides everything,
and past it the output is the level-independent dual-sink fan-out (the
redundant sink-availability gate collapses into the empty fan-out). -/
theorem printWithPrefixf_eq (s : LogState) (level : Int) (withPfx : Bool) (msg : String) :
    printWithPrefixf s level withPfx msg =
      if s.logLevel < level then []
      else sinkFanOut s (if withPfx then s.prefixerFn level ++ msg else msg) := by
  unfold printWithPrefixf sinkFanOut
  by_cases h : s.logLevel < level
  · simp [h]
  · by_cases h2 : isFileLoggingEnabled s <;> by_cases h3 : s.logToStderr <;>
      simp [h, h2, h3]

/-- The even/even path of structuredMessage: renders both pair lists and
joins with single spaces. -/
theorem structuredMessage_ok (s : LogState) (level : Int) (msg : String) (args : List GoValue)
    (h1 : (s.structuredPrefixerFn level msg).length % 2 = 0) (h2 : args.length % 2 = 0) :
    structuredMessage s level msg args =
      Except.ok (String.intercalate " "
        (renderKVPairs (s.structuredPrefixerFn level msg) ++ renderKVPairs args)) := by
  unfold structuredMessage
  simp [h1, h2]

/-- The odd-prefix path of structuredMessage. -/
theorem structuredMessage_oddPrefixList (s : LogState) (level : Int) (msg : String) (args : List GoValue)
    (h1 : (s.structuredPrefixerFn level msg).length % 2 ≠ 0) :
    structuredMessage s level msg args =
      Except.error ("msg=" ++ goQuote msg ++ " logging_failure=" ++ goQuote structuredPrefixerOddArguments) := by
  unfold structuredMessage
  simp [h1]

/-- The even-prefix, odd-args path of structuredMessage. -/
theorem structuredMessage_oddArgs (s : LogState) (level : Int) (msg : String) (args : List GoValue)
    (h1 : (s.structuredPrefixerFn level msg).length % 2 = 0) (h2 : args.length % 2 ≠ 0) :
    structuredMessage s level msg args =
      Except.error (String.intercalate " "
        (renderKVPairs (s.structuredPrefixerFn level msg) ++
         ["logging_failure=" ++ goQuote structuredLoggingOddArguments])) := by
  unfold structuredMessage
  simp [h1, h2]

/-! Concrete states used by the witnesses. -/

def demoLogger : LumberjackLogger :=
  { filename := "f.log", maxSize := 100, maxAge := 5, maxBackups := 5, compress := true }

/-- A demonstration plain prefixer. -/
def demoPrefixFn : Int → String := fun l => "P[" ++ levelString l ++ "] "

/-- The default StructuredPrefixer with the timestamp fixed at "t0":
CreateStructuredPrefix returns time, level and msg pairs. -/
def demoStructuredFn : Int → String → List GoValue := fun l m =>
  [GoValue.str "time", GoValue.str "t0", GoValue.str "level", GoValue.level l,
   GoValue.str "msg", GoValue.str m]

/-- A fully configured state: threshold Info, both sinks enabled. -/
def demoState : LogState :=
  { logger := demoLogger, logWriter := some (LogWriter.rotatingFile demoLogger),
    logLevel := InfoLevel, logToStderr := true,
    prefixerFn := demoPrefixFn, structuredPrefixerFn := demoStructuredFn }

/-- A state whose StructuredPrefixer breaks its contract by returning an
odd-length list. -/
def demoOddState : LogState :=
  { demoState with structuredPrefixerFn := fun _ _ => [GoValue.str "time"] }

/-- A state in which every message is discarded: threshold Panic and no
sink enabled. -/
def demoGatedState : LogState :=
  { demoState with logLevel := PanicLevel, logWriter := none, logToStderr := false }

/-- C1: for a logging call at level `level` against threshold `s.logLevel`,
a less severe level (numerically above the threshold) writes to no sink;
otherwise the final line followed by a newline is written to stderr iff
stderr logging is enabled and to the file write-target iff the file sink is
active, the two writes appended independently; with neither sink enabled
the call is a silent no-op producing no write. -/
theorem claim_level_gate_and_fanout (s : LogState) (level : Int) (withPfx : Bool) (msg : String) :
    (level > s.logLevel → printWithPrefixf s level withPfx msg = []) ∧
    (level ≤ s.logLevel →
       printWithPrefixf s level withPfx msg =
         (if s.logToStderr then
            [WriteEvent.mk Sink.stderr ((if withPfx then s.prefixerFn level ++ msg else msg) ++ "\n")]
          else []) ++
         (if isFileLoggingEnabled s then
            [WriteEvent.mk Sink.fileTarget ((if withPfx then s.prefixerFn level ++ msg else msg) ++ "\n")]
          else [])) ∧
    (s.logToStderr = false → isFileLoggingEnabled s = false →
       printWithPrefixf s level withPfx msg = []) := by
  have h := printWithPrefixf_eq s level withPfx msg
  refine ⟨fun hgt => ?_, fun hle => ?_, fun h1 h2 => ?_⟩
  · rw [h, if_pos hgt]
  · rw [h, if_neg (not_lt.mpr hle)]
    simp [sinkFanOut, doWritef]
  · rw [h]
    by_cases hg : s.logLevel < level
    · rw [if_pos hg]
    · rw [if_neg hg]
      simp [sinkFanOut, h1, h2]

theorem claim_level_gate_and_fanout_witness :
    printWithPrefixf demoState DebugLevel true "hidden" = [] ∧
    printWithPrefixf demoState WarningLevel true "shown" =
      [WriteEvent.mk Sink.stderr "P[warning] shown\n",
       WriteEvent.mk Sink.fileTarget "P[warning] shown\n"] := by
  constructor
  · exact (claim_level_gate_and_fanout demoState DebugLevel true "hidden").1 (by decide)
  · have h := (claim_level_gate_and_fanout demoState WarningLevel true "shown").2.1 (by decide)
    rw [h]
    rfl

/-- C8: Panicf dispatches the caller's message and then unconditionally
makes three further passes through the same pipeline at Panic level (the
stack-trace banner, the stack trace, the closing banner); with a valid
threshold the level gate is satisfied for every pass since Panic is the
most severe level, so each pass reduces to the plain dual-sink fan-out. -/
theorem claim_panicf_stack_passes (s : LogState) (stackTrace msg : String)
    (h : 0 < s.logLevel) :
    ¬(PanicLevel > s.logLevel) ∧
    Panicf s stackTrace msg =
      sinkFanOut s (s.prefixerFn PanicLevel ++ msg) ++
      sinkFanOut s (s.prefixerFn PanicLevel ++ "========= Stack trace output ========") ++
      sinkFanOut s (s.prefixerFn PanicLevel ++ stackTrace) ++
      sinkFanOut s (s.prefixerFn PanicLevel ++ "========= Stack trace output end ========") := by
  have hng : ¬(s.logLevel < PanicLevel) := by
    unfold PanicLevel
    omega
  refine ⟨hng, ?_⟩
  unfold Panicf printf
  rw [printWithPrefixf_eq, printWithPrefixf_eq, printWithPrefixf_eq, printWithPrefixf_eq]
  simp [if_neg hng]

theorem claim_panicf_stack_passes_witness :
    0 < demoState.logLevel ∧
    ¬(PanicLevel > demoState.logLevel) ∧
    Panicf demoState "ST" "boom" =
      [WriteEvent.mk Sink.stderr "P[panic] boom\n",
       WriteEvent.mk Sink.fileTarget "P[panic] boom\n",
       WriteEvent.mk Sink.stderr "P[panic] ========= Stack trace output ========\n",
       WriteEvent.mk Sink.fileTarget "P[panic] ========= Stack trace output ========\n",
       WriteEvent.mk Sink.stderr "P[panic] ST\n",
       WriteEvent.mk Sink.fileTarget "P[panic] ST\n",
       WriteEvent.mk Sink.stderr "P[panic] ========= Stack trace output end ========\n",
       WriteEvent.mk Sink.fileTarget "P[panic] ========= Stack trace output end ========\n"] := by
  have h := claim_panicf_stack_passes demoState "ST" "boom" (by decide)
  exact ⟨by decide, h.1, by rw [h.2]; rfl⟩

/-- Indexing lemma for the pair-rendering loop: entry `i` of the rendered
list is built from elements `2*i` and `2*i+1` of the key/value list. -/
theorem renderKVPairs_get : ∀ (l : List GoValue) (i : Nat) (k v : GoValue),
    l.get? (2*i) = some k → l.get? (2*i+1) = some v →
    (renderKVPairs l).get? i = some (argToString k ++ "=" ++ goQuote (argToString v))
  | [], _, _, _, hk, _ => by simp at hk
  | [_], i, _, _, hk, hv => by
      rcases i with _ | j
      · simp at hv
      · rw [show 2*(j+1) = 2*j+1+1 by ring] at hk
        simp at hk
  | a :: b :: rest, 0, k, v, hk, hv => by
      simp only [Nat.mul_zero, Nat.zero_add, List.get?, Option.some.injEq] at hk hv
      subst hk
      subst hv
      simp [renderKVPairs]
  | a :: b :: rest, j+1, k, v, hk, hv => by
      rw [show 2*(j+1) = 2*j+1+1 by ring] at hk
      rw [show 2*(j+1)+1 = 2*j+1+1+1 by ring] at hv
      simp only [List.get?] at hk hv
      have ih := renderKVPairs_get rest j k v hk hv
      simpa [renderKVPairs, List.get?] using ih

/-- C2: with an odd-length StructuredPrefixer result the structured call
aborts by panic whose payload is `msg=<message> logging_failure="prefixer
must return an even number of arguments for structured logging"`; with an
even prefix list but odd-length caller arguments it aborts by panic whose
payload is the rendered prefix pairs with a trailing logging_failure pair;
every structured entry point propagates the panic unchanged and writes
nothing to any sink in either case. -/
theorem claim_structured_odd_parity_abort (s : LogState) (stackTrace msg : String) (args : List GoValue) :
    (∀ level : Int, (s.structuredPrefixerFn level msg).length % 2 ≠ 0 →
       structuredMessage s level msg args =
         Except.error ("msg=" ++ goQuote msg ++ " logging_failure=" ++ goQuote structuredPrefixerOddArguments)) ∧
    (∀ level : Int, (s.structuredPrefixerFn level msg).length % 2 = 0 → args.length % 2 ≠ 0 →
       structuredMessage s level msg args =
         Except.error (String.intercalate " "
           (renderKVPairs (s.structuredPrefixerFn level msg) ++
            ["logging_failure=" ++ goQuote structuredLoggingOddArguments]))) ∧
    (∀ p, structuredMessage s InfoLevel msg args = Except.error p →
       InfoStructured s msg args = Except.error p) ∧
    (∀ p, structuredMessage s WarningLevel msg args = Except.error p →
       WarningStructured s msg args = Except.error p) ∧
    (∀ p, structuredMessage s DebugLevel msg args = Except.error p →
       DebugStructured s msg args = Except.error p) ∧
    (∀ p, structuredMessage s ErrorLevel msg args = Except.error p →
       ErrorStructured s msg args = Except.error p) ∧
    (∀ p, structuredMessage s PanicLevel msg (args ++ [GoValue.str "stacktrace", GoValue.str stackTrace]) = Except.error p →
       PanicStructured s stackTrace msg args = Except.error p) := by
  refine ⟨fun level h1 => structuredMessage_oddPrefixList s level msg args h1,
          fun level h1 h2 => structuredMessage_oddArgs s level msg args h1 h2,
          fun p hp => ?_, fun p hp => ?_, fun p hp => ?_, fun p hp => ?_, fun p hp => ?_⟩
  · unfold InfoStructured
    rw [hp]
  · unfold WarningStructured
    rw [hp]
  · unfold DebugStructured
    rw [hp]
  · unfold ErrorStructured
    rw [hp]
  · unfold PanicStructured
    rw [hp]

theorem claim_structured_odd_parity_abort_witness :
    InfoStructured demoOddState "evt" [] =
      Except.error "msg=\"evt\" logging_failure=\"prefixer must return an even number of arguments for structured logging\"" ∧
    InfoStructured demoState "evt" [GoValue.str "key"] =
      Except.error "time=\"t0\" level=\"info\" msg=\"evt\" logging_failure=\"must provide an even number of arguments for structured logging\"" := by
  constructor
  · have h := claim_structured_odd_parity_abort demoOddState "ST" "evt" []
    have e := h.1 InfoLevel (by decide)
    have w := h.2.2.1 _ e
    rw [w]
    rfl
  · have h := claim_structured_odd_parity_abort demoState "ST" "evt" [GoValue.str "key"]
    have e := h.2.1 InfoLevel (by decide) (by decide)
    have w := h.2.2.1 _ e
    rw [w]
    rfl

/-- C3: with an even prefix list and even caller arguments, the structured
message is exactly the rendered prefix pairs followed by the rendered
caller pairs, each pair `key="value"` built from the generic string
rendering of both components (entry i comes from elements 2i and 2i+1),
joined by single spaces in list order, and InfoStructured dispatches this
text through the gate/fan-out with prefix injection disabled, so the
result does not depend on the plain Prefixer at all. -/
theorem claim_structured_even_render (s : LogState) (msg : String) (args : List GoValue) :
    (∀ (l : List GoValue) (i : Nat) (k v : GoValue),
       l.get? (2*i) = some k → l.get? (2*i+1) = some v →
       (renderKVPairs l).get? i = some (argToString k ++ "=" ++ goQuote (argToString v))) ∧
    ((s.structuredPrefixerFn InfoLevel msg).length % 2 = 0 → args.length % 2 = 0 →
       structuredMessage s InfoLevel msg args =
         Except.ok (String.intercalate " "
           (renderKVPairs (s.structuredPrefixerFn InfoLevel msg) ++ renderKVPairs args)) ∧
       InfoStructured s msg args =
         Except.ok (printWithPrefixf s InfoLevel false
           (String.intercalate " "
             (renderKVPairs (s.structuredPrefixerFn InfoLevel msg) ++ renderKVPairs args)))) ∧
    (∀ pf : Int → String,
       InfoStructured { s with prefixerFn := pf } msg args = InfoStructured s msg args) := by
  refine ⟨renderKVPairs_get, fun h1 h2 => ?_, fun pf => ?_⟩
  · have hm := structuredMessage_ok s InfoLevel msg args h1 h2
    refine ⟨hm, ?_⟩
    unfold InfoStructured
    rw [hm]
  · unfold InfoStructured structuredMessage printWithPrefixf
    simp [isFileLoggingEnabled]

theorem claim_structured_even_render_witness :
    (renderKVPairs [GoValue.str "key", GoValue.str "val"]).get? 0 = some "key=\"val\"" ∧
    InfoStructured demoState "evt" [GoValue.str "key", GoValue.str "val"] =
      Except.ok [WriteEvent.mk Sink.stderr "time=\"t0\" level=\"info\" msg=\"evt\" key=\"val\"\n",
                 WriteEvent.mk Sink.fileTarget "time=\"t0\" level=\"info\" msg=\"evt\" key=\"val\"\n"] := by
  have h := claim_structured_even_render demoState "evt" [GoValue.str "key", GoValue.str "val"]
  constructor
  · exact h.1 [GoValue.str "key", GoValue.str "val"] 0 (GoValue.str "key") (GoValue.str "val") rfl rfl
  · have h2 := (h.2.1 (by decide) (by decide)).2
    rw [h2]
    rfl

/-- C10: every structured entry point lets structuredMessage run its two
parity checks before the level gate and the sink-availability gate, so an
odd prefix list or an odd caller list produces the panic for every state,
and the outcome of a parity violation is unchanged when the threshold,
the file write-target and the stderr flag are replaced arbitrarily (in
particular in states where the message would have been discarded). -/
theorem claim_parity_checked_before_gates (s : LogState) (stackTrace msg : String) (args : List GoValue) :
    (∀ level : Int,
       (s.structuredPrefixerFn level msg).length % 2 ≠ 0 ∨ args.length % 2 ≠ 0 →
       ∃ p, structuredMessage s level msg args = Except.error p) ∧
    ((s.structuredPrefixerFn InfoLevel msg).length % 2 ≠ 0 ∨ args.length % 2 ≠ 0 →
       ∃ p, InfoStructured s msg args = Except.error p) ∧
    ((s.structuredPrefixerFn WarningLevel msg).length % 2 ≠ 0 ∨ args.length % 2 ≠ 0 →
       ∃ p, WarningStructured s msg args = Except.error p) ∧
    ((s.structuredPrefixerFn DebugLevel msg).length % 2 ≠ 0 ∨ args.length % 2 ≠ 0 →
       ∃ p, DebugStructured s msg args = Except.error p) ∧
    ((s.structuredPrefixerFn ErrorLevel msg).length % 2 ≠ 0 ∨ args.length % 2 ≠ 0 →
       ∃ p, ErrorStructured s msg args = Except.error p) ∧
    ((s.structuredPrefixerFn PanicLevel msg).length % 2 ≠ 0 ∨ args.length % 2 ≠ 0 →
       ∃ p, PanicStructured s stackTrace msg args = Except.error p) ∧
    (∀ (lvl : Int) (w : Option LogWriter) (b : Bool) (p : String),
       InfoStructured s msg args = Except.error p →
       InfoStructured { s with logLevel := lvl, logWriter := w, logToStderr := b } msg args =
         Except.error p) := by
  have key : ∀ (level : Int) (a : List GoValue),
      (s.structuredPrefixerFn level msg).length % 2 ≠ 0 ∨ a.length % 2 ≠ 0 →
      ∃ p, structuredMessage s level msg a = Except.error p := by
    intro level a h
    by_cases hp : (s.structuredPrefixerFn level msg).length % 2 = 0
    · rcases h with h | h
      · exact absurd hp h
      · exact ⟨_, structuredMessage_oddArgs s level msg a hp h⟩
    · exact ⟨_, structuredMessage_oddPrefixList s level msg a hp⟩
  refine ⟨fun level h => key level args h, fun h => ?_, fun h => ?_, fun h => ?_, fun h => ?_,
          fun h => ?_, fun lvl w b p hp => ?_⟩
  · obtain ⟨p, hp⟩ := key InfoLevel args h
    exact ⟨p, by unfold InfoStructured; rw [hp]⟩
  · obtain ⟨p, hp⟩ := key WarningLevel args h
    exact ⟨p, by unfold WarningStructured; rw [hp]⟩
  · obtain ⟨p, hp⟩ := key DebugLevel args h
    exact ⟨p, by unfold DebugStructured; rw [hp]⟩
  · obtain ⟨p, hp⟩ := key ErrorLevel args h
    exact ⟨p, by unfold ErrorStructured; rw [hp]⟩
  · have h2 : (s.structuredPrefixerFn PanicLevel msg).length % 2 ≠ 0 ∨
        (args ++ [GoValue.str "stacktrace", GoValue.str stackTrace]).length % 2 ≠ 0 := by
      rcases h with h | h
      · exact Or.inl h
      · refine Or.inr ?_
        simp [List.length_append]
        omega
    obtain ⟨p, hp⟩ := key PanicLevel (args ++ [GoValue.str "stacktrace", GoValue.str stackTrace]) h2
    exact ⟨p, by unfold PanicStructured; rw [hp]⟩
  · have hsm : structuredMessage { s with logLevel := lvl, logWriter := w, logToStderr := b } InfoLevel msg args =
        structuredMessage s InfoLevel msg args := rfl
    rcases hm : structuredMessage s InfoLevel msg args with p2 | m
    · have h1 : InfoStructured s msg args = Except.error p2 := by
        unfold InfoStructured
        rw [hm]
      have h2 : InfoStructured { s with logLevel := lvl, logWriter := w, logToStderr := b } msg args =
          Except.error p2 := by
        unfold InfoStructured
        rw [hsm, hm]
      rw [h1] at hp
      rw [h2]
      exact hp
    · have h1 : InfoStructured s msg args = Except.ok (printWithPrefixf s InfoLevel false m) := by
        unfold InfoStructured
        rw [hm]
      rw [h1] at hp
      exact absurd hp (by simp)

theorem claim_parity_checked_before_gates_witness :
    InfoLevel > demoGatedState.logLevel ∧
    isFileLoggingEnabled demoGatedState = false ∧
    demoGatedState.logToStderr = false ∧
    (∃ p, InfoStructured demoGatedState "evt" [GoValue.str "key"] = Except.error p) := by
  have h := claim_parity_checked_before_gates demoGatedState "ST" "evt" [GoValue.str "key"]
  exact ⟨by decide, by decide, by decide, h.2.1 (Or.inr (by decide))⟩

/-- C4 counterexample: the value 6 satisfies the claim's validity bound
`0 < L <= 6` (maximum Verbose(6)), yet SetLogLevel rejects it: the
threshold is left at Info and the diagnostic is emitted, because the
code's maximum valid level is Debug(5) and there is no Verbose level. -/
theorem claim_setloglevel_verbose_counterexample :
    (0 < (6 : Int) ∧ (6 : Int) ≤ 6) ∧
    levelIsValid 6 = false ∧
    (SetLogLevel demoState 6).1.logLevel = InfoLevel ∧
    (SetLogLevel demoState 6).1.logLevel ≠ 6 ∧
    (SetLogLevel demoState 6).2 = [setLevelFailText 6] := by
  refine ⟨by decide, by decide, rfl, by decide, rfl⟩

/-- C4 amended: SetLogLevel(L) stores L as the new threshold iff L is
valid, i.e. iff 0 < L <= maximum where the maximum valid level is
Debug(5); for any invalid L it emits the "cannot set logging level to
'%s'" diagnostic to stderr and leaves the threshold unchanged. -/
theorem claim_setloglevel_validity (s : LogState) (level : Int) :
    maximumLevel = DebugLevel ∧ DebugLevel = 5 ∧
    (levelIsValid level = true ↔ 0 < level ∧ level ≤ maximumLevel) ∧
    (levelIsValid level = true → SetLogLevel s level = ({ s with logLevel := level }, [])) ∧
    (levelIsValid level = false → SetLogLevel s level = (s, [setLevelFailText level])) := by
  refine ⟨rfl, rfl, ?_, fun h => ?_, fun h => ?_⟩
  · unfold levelIsValid
    simp [Bool.and_eq_true, decide_eq_true_iff]
  · simp [SetLogLevel, h]
  · simp [SetLogLevel, h]

theorem claim_setloglevel_validity_witness :
    levelIsValid DebugLevel = true ∧
    (SetLogLevel demoState DebugLevel).1.logLevel = DebugLevel ∧
    levelIsValid 6 = false ∧
    SetLogLevel demoState 6 = (demoState, [setLevelFailText 6]) := by
  refine ⟨by decide, ?_, by decide,
          (claim_setloglevel_validity demoState 6).2.2.2.2 (by decide)⟩
  rw [(claim_setloglevel_validity demoState DebugLevel).2.2.2.1 (by decide)]

/-- C5 counterexample: "verbose" is one of the claim's six valid names,
but StringToLevel maps it to Invalid(-1), not to a valid level, and no
level's String() form is "verbose": the code's name table has only five
entries. -/
theorem claim_stringtolevel_verbose_counterexample :
    StringToLevel "verbose" = InvalidLevel ∧
    levelIsValid (StringToLevel "verbose") = false ∧
    levelString 6 ≠ "verbose" := by decide

/-- Evaluation of the Go map lookup over the five-entry name table. -/
theorem lookupLevel_levelMap (k : String) :
    lookupLevel k levelMap =
      if k = "panic" then PanicLevel
      else if k = "error" then ErrorLevel
      else if k = "warning" then WarningLevel
      else if k = "info" then InfoLevel
      else if k = "debug" then DebugLevel
      else InvalidLevel := rfl

/-- C5 amended: for each of the five valid level names panic, error,
warning, info, debug in any letter casing, StringToLevel returns the
corresponding valid Level; Level.String() returns the canonical lowercase
name; StringToLevel(StringToLevel(x).String()) equals StringToLevel(x)
for every string; any unmatched string maps to Invalid(-1). -/
theorem claim_stringtolevel_roundtrip (x : String) :
    (toLowerGo x = "panic" → StringToLevel x = PanicLevel) ∧
    (toLowerGo x = "error" → StringToLevel x = ErrorLevel) ∧
    (toLowerGo x = "warning" → StringToLevel x = WarningLevel) ∧
    (toLowerGo x = "info" → StringToLevel x = InfoLevel) ∧
    (toLowerGo x = "debug" → StringToLevel x = DebugLevel) ∧
    (toLowerGo x ∉ (["panic", "error", "warning", "info", "debug"] : List String) →
       StringToLevel x = InvalidLevel) ∧
    (levelString PanicLevel = "panic" ∧ levelString ErrorLevel = "error" ∧
     levelString WarningLevel = "warning" ∧ levelString InfoLevel = "info" ∧
     levelString DebugLevel = "debug") ∧
    StringToLevel (levelString (StringToLevel x)) = StringToLevel x := by
  have hx : StringToLevel x =
      if toLowerGo x = "panic" then PanicLevel
      else if toLowerGo x = "error" then ErrorLevel
      else if toLowerGo x = "warning" then WarningLevel
      else if toLowerGo x = "info" then InfoLevel
      else if toLowerGo x = "debug" then DebugLevel
      else InvalidLevel := lookupLevel_levelMap (toLowerGo x)
  refine ⟨fun h => ?_, fun h => ?_, fun h => ?_, fun h => ?_, fun h => ?_, fun h => ?_,
          by decide, ?_⟩
  · rw [hx, h]
    decide
  · rw [hx, h]
    decide
  · rw [hx, h]
    decide
  · rw [hx, h]
    decide
  · rw [hx, h]
    decide
  · have h1 : toLowerGo x ≠ "panic" := fun he => h (by rw [he]; decide)
    have h2 : toLowerGo x ≠ "error" := fun he => h (by rw [he]; decide)
    have h3 : toLowerGo x ≠ "warning" := fun he => h (by rw [he]; decide)
    have h4 : toLowerGo x ≠ "info" := fun he => h (by rw [he]; decide)
    have h5 : toLowerGo x ≠ "debug" := fun he => h (by rw [he]; decide)
    rw [hx, if_neg h1, if_neg h2, if_neg h3, if_neg h4, if_neg h5]
  · rw [hx]
    split_ifs <;> decide

theorem claim_stringtolevel_roundtrip_witness :
    toLowerGo "WaRnInG" = "warning" ∧
    StringToLevel "WaRnInG" = WarningLevel ∧
    StringToLevel (levelString (StringToLevel "WARNING")) = StringToLevel "WARNING" := by
  refine ⟨by decide, (claim_stringtolevel_roundtrip "WaRnInG").2.2.1 (by decide),
          (claim_stringtolevel_roundtrip "WARNING").2.2.2.2.2.2.2⟩

/-- C6: every SetLogOptions call (a null options object included) resets
the rotation policy to the fixed defaults size=100, age=5, backups=5,
compress=true and overlays only the caller-supplied non-absent fields, so
an unset field takes the default rather than the previous value; the
filename is untouched; and when a file sink is currently active the
write-target snapshot is republished from the updated descriptor, while
an inactive write-target is left unchanged. -/
theorem claim_setlogoptions_reset_overlay (s : LogState) (o : Option LogOptions) :
    ((SetLogOptions s o).logger.maxSize =
       (match o with | none => 100 | some oo => oo.maxSize.getD 100)) ∧
    ((SetLogOptions s o).logger.maxAge =
       (match o with | none => 5 | some oo => oo.maxAge.getD 5)) ∧
    ((SetLogOptions s o).logger.maxBackups =
       (match o with | none => 5 | some oo => oo.maxBackups.getD 5)) ∧
    ((SetLogOptions s o).logger.compress =
       (match o with | none => true | some oo => oo.compress.getD true)) ∧
    ((SetLogOptions s o).logger.filename = s.logger.filename) ∧
    (isFileLoggingEnabled s = true →
       (SetLogOptions s o).logWriter = some (LogWriter.rotatingFile (SetLogOptions s o).logger)) ∧
    (isFileLoggingEnabled s = false → (SetLogOptions s o).logWriter = s.logWriter) := by
  have hw : (stateSetLogOptions s o).logWriter = s.logWriter := rfl
  have hcond : isFileLoggingEnabled (stateSetLogOptions s o) = isFileLoggingEnabled s := by
    unfold isFileLoggingEnabled
    rw [hw]
  have hset : SetLogOptions s o =
      (if isFileLoggingEnabled (stateSetLogOptions s o) = true then
        setLoggerAsLogWriter (stateSetLogOptions s o)
      else stateSetLogOptions s o) := rfl
  have hlg : (SetLogOptions s o).logger = (stateSetLogOptions s o).logger := by
    rw [hset]
    split
    · rfl
    · rfl
  have h6 : isFileLoggingEnabled s = true →
      (SetLogOptions s o).logWriter = some (LogWriter.rotatingFile (SetLogOptions s o).logger) := by
    intro h
    rw [hset, hcond, h]
    simp [setLoggerAsLogWriter]
  have h7 : isFileLoggingEnabled s = false → (SetLogOptions s o).logWriter = s.logWriter := by
    intro h
    rw [hset, hcond, h]
    simp [hw]
  refine ⟨?_, ?_, ?_, ?_, ?_, h6, h7⟩
  all_goals rw [hlg]
  all_goals rcases o with _ | ⟨ma, ms, mb, mc⟩
  all_goals try rfl
  all_goals rcases ma with _ | a <;> rcases ms with _ | b <;> rcases mb with _ | c <;>
    rcases mc with _ | d <;> rfl

def demoOptions : LogOptions :=
  { maxAge := some 7, maxSize := none, maxBackups := some 2, compress := none }

theorem claim_setlogoptions_reset_overlay_witness :
    isFileLoggingEnabled demoState = true ∧
    (SetLogOptions demoState (some demoOptions)).logger =
      { filename := "f.log", maxSize := 100, maxAge := 7, maxBackups := 2, compress := true } ∧
    (SetLogOptions demoState (some demoOptions)).logWriter =
      some (LogWriter.rotatingFile
        { filename := "f.log", maxSize := 100, maxAge := 7, maxBackups := 2, compress := true }) := by
  refine ⟨by decide, by decide, ?_⟩
  rw [(claim_setlogoptions_reset_overlay demoState (some demoOptions)).2.2.2.2.2.1 (by decide)]
  decide

/-- C7: for a non-empty path, a symbolic link or an unwritable resolved
path produces a diagnostic naming the path and leaves the whole previous
state (rotation descriptor filename and file write-target) unchanged; on
success the descriptor filename is set and the snapshot published; for the
empty path the filename and the write-target are cleared together and the
"nothing will be logged" diagnostic appears iff stderr logging is
currently disabled. -/
theorem claim_setlogfile_spec (fs : FileSystem) (s : LogState) (filename : String) :
    (filename = "" →
       SetLogFile fs s filename =
         ({ s with logger := { s.logger with filename := "" }, logWriter := none },
          if s.logToStderr then [] else [logFileReqFailMsg])) ∧
    (filename ≠ "" → fs.isSymLink filename = true →
       SetLogFile fs s filename = (s, [symlinkEvalFailText filename])) ∧
    (filename ≠ "" → fs.isSymLink filename = false →
       fs.isLogFileWritable (fs.cleanPath filename) = false →
       SetLogFile fs s filename = (s, [logFileFailText filename])) ∧
    (filename ≠ "" → fs.isSymLink filename = false →
       fs.isLogFileWritable (fs.cleanPath filename) = true →
       SetLogFile fs s filename =
         ({ s with logger := { s.logger with filename := filename },
                   logWriter := some (LogWriter.rotatingFile { s.logger with filename := filename }) },
          [])) := by
  refine ⟨fun h => ?_, fun h h1 => ?_, fun h h1 h2 => ?_, fun h h1 h2 => ?_⟩
  · subst h
    by_cases hb : s.logToStderr <;> simp [SetLogFile, stateSetLogFile, hb]
  · simp [SetLogFile, resolvePath, h, h1]
  · simp [SetLogFile, resolvePath, stateSetLogFile, h, h1, h2]
  · simp [SetLogFile, resolvePath, stateSetLogFile, h, h1, h2]

/-- A demonstration filesystem: "sym.log" is a symbolic link, "ro.log" is
not writable, every other path resolves to itself and is writable. -/
def demoFS : FileSystem :=
  { isSymLink := fun p => decide (p = "sym.log"),
    cleanPath := fun p => p,
    isLogFileWritable := fun p => !(decide (p = "ro.log")) }

theorem claim_setlogfile_spec_witness :
    SetLogFile demoFS demoState "sym.log" = (demoState, [symlinkEvalFailText "sym.log"]) ∧
    SetLogFile demoFS demoState "ro.log" = (demoState, [logFileFailText "ro.log"]) ∧
    (SetLogFile demoFS demoState "new.log").1.logger.filename = "new.log" ∧
    (SetLogFile demoFS demoState "").1.logWriter = none := by
  refine ⟨(claim_setlogfile_spec demoFS demoState "sym.log").2.1 (by decide) (by decide),
          (claim_setlogfile_spec demoFS demoState "ro.log").2.2.1 (by decide) (by decide) (by decide),
          ?_, ?_⟩
  · rw [(claim_setlogfile_spec demoFS demoState "new.log").2.2.2 (by decide) (by decide) (by decide)]
  · rw [(claim_setlogfile_spec demoFS demoState "").1 rfl]

/-- C9: Errorf returns the error value carrying the formatted message on
every call, the same value whatever the state, including when the message
is discarded by the level gate or because no sink is enabled;
ErrorStructured, on the parity-respecting path, returns the error value
carrying the structured text, and two states sharing a
StructuredPrefixer yield the same carried error text. -/
theorem claim_errorf_returns_error (s s2 : LogState) (msg : String) (args : List GoValue) :
    (Errorf s msg).2 = msg ∧
    (Errorf s2 msg).2 = (Errorf s msg).2 ∧
    (ErrorLevel > s.logLevel → Errorf s msg = ([], msg)) ∧
    (isFileLoggingEnabled s = false → s.logToStderr = false → Errorf s msg = ([], msg)) ∧
    ((s.structuredPrefixerFn ErrorLevel msg).length % 2 = 0 → args.length % 2 = 0 →
       ErrorStructured s msg args =
         Except.ok
           (printWithPrefixf s ErrorLevel false
              (String.intercalate " "
                (renderKVPairs (s.structuredPrefixerFn ErrorLevel msg) ++ renderKVPairs args)),
            String.intercalate " "
              (renderKVPairs (s.structuredPrefixerFn ErrorLevel msg) ++ renderKVPairs args))) ∧
    (s2.structuredPrefixerFn = s.structuredPrefixerFn →
       ∀ ev m ev2 m2, ErrorStructured s msg args = Except.ok (ev, m) →
         ErrorStructured s2 msg args = Except.ok (ev2, m2) → m = m2) := by
  refine ⟨rfl, rfl, fun h => ?_, fun h1 h2 => ?_, fun h1 h2 => ?_,
          fun hsp ev m ev2 m2 he1 he2 => ?_⟩
  · unfold Errorf printf
    rw [printWithPrefixf_eq, if_pos h]
  · unfold Errorf printf
    rw [printWithPrefixf_eq]
    by_cases hg : s.logLevel < ErrorLevel
    · rw [if_pos hg]
    · rw [if_neg hg]
      simp [sinkFanOut, h1, h2]
  · have hm := structuredMessage_ok s ErrorLevel msg args h1 h2
    unfold ErrorStructured
    rw [hm]
  · have hsm : structuredMessage s2 ErrorLevel msg args = structuredMessage s ErrorLevel msg args := by
      unfold structuredMessage
      rw [hsp]
    unfold ErrorStructured at he1 he2
    rw [hsm] at he2
    rcases hh : structuredMessage s ErrorLevel msg args with p | mm
    · rw [hh] at he1
      exact absurd he1 (by simp)
    · rw [hh] at he1 he2
      simp only [Except.ok.injEq, Prod.mk.injEq] at he1 he2
      rw [← he1.2, ← he2.2]

theorem claim_errorf_returns_error_witness :
    ErrorLevel > demoGatedState.logLevel ∧
    Errorf demoGatedState "boom" = ([], "boom") ∧
    ErrorStructured demoState "evt" [] =
      Except.ok ([WriteEvent.mk Sink.stderr "time=\"t0\" level=\"error\" msg=\"evt\"\n",
                  WriteEvent.mk Sink.fileTarget "time=\"t0\" level=\"error\" msg=\"evt\"\n"],
                 "time=\"t0\" level=\"error\" msg=\"evt\"") := by
  refine ⟨by decide,
          (claim_errorf_returns_error demoGatedState demoGatedState "boom" []).2.2.1 (by decide),
          ?_⟩
  rw [(claim_errorf_returns_error demoState demoState "evt" []).2.2.2.2.1 (by decide) (by decide)]
  rfl
